import Mathlib

/-!
Verification of the batch text-sanitization pipeline (src/main.py).

The embedding is a shallow one: the external collaborators (filesystem and
transformation service) are modelled as environment data attached to each
directory entry, and the Python control flow of `clean_single_text`,
`process_directory` and `process_root_directory` is translated into pure Lean
functions over that environment.  Durations are rationals; file names and file
contents are lists of characters.
-/

/-- File names and file contents are modelled as lists of characters. -/
abbrev Str := List Char

/-- Characters that Python's str.strip removes (ASCII whitespace; the embedding
uses this set, the claims do not depend on the exact whitespace alphabet). -/
def pyIsSpace (ch : Char) : Bool :=
  ch = ' ' || ch = '\t' || ch = '\n' || ch = '\r' || ch = '\x0b' || ch = '\x0c'

/-- Models the emptiness test at line 73 of main.py: not raw_content.strip()
holds exactly when every character of the content is whitespace (in particular
for the empty content). -/
def isBlank (c : Str) : Bool := c.all pyIsSpace

/-- The recognized text-file extension checked at line 44 of main.py. -/
def txtExt : Str := ['.', 't', 'x', 't']

/-- The fixed marker prepended to output file names at line 86 of main.py. -/
def cleanedMarker : Str := ['c', 'l', 'e', 'a', 'n', 'e', 'd', '_']

/-- Outcome of the single external service call inside clean_single_text
(lines 24-32 of main.py): either a well-formed reply carrying the returned
text together with the measured call duration, or a raised service-level
error. -/
inductive ServiceOutcome where
  | ok (text : Str) (elapsed : ℚ)
  | err
deriving DecidableEq

/-- Models clean_single_text (lines 20-37 of main.py).  The try block returns
the reply content paired with the measured elapsed time; the except block
catches every exception and returns (None, 0).  The Lean function is total:
no exception escapes. -/
def clean_single_text (svc : ServiceOutcome) : Option Str × ℚ :=
  match svc with
  | ServiceOutcome.ok t d => (some t, d)
  | ServiceOutcome.err => (none, 0)

/-- One entry of a source directory together with the behaviour the external
collaborators exhibit for it: the listing data (name, regular-file flag), the
result of reading it (none models a read exception at lines 65-70), the
outcome of the service call were one made for its content, and whether the
output write would succeed (false models a write exception at lines 88-94). -/
structure DirEntry where
  name : Str
  isFile : Bool
  readResult : Option Str
  service : ServiceOutcome
  writeOk : Bool
deriving DecidableEq

/-- The filter at lines 43-44 of main.py: name ends in .txt and the entry is a
regular file. -/
def eligible (e : DirEntry) : Bool :=
  txtExt.isSuffixOf e.name && e.isFile

/-- Classification of one loop iteration of process_directory
(lines 59-96 of main.py). -/
inductive FileOutcome where
  | readFailed
  | skippedEmpty
  | succeeded (apiTime : ℚ)
  | transformFailed
  | writeFailed (apiTime : ℚ)
deriving DecidableEq

/-- True exactly for the outcome that increments success_count (line 92). -/
def FileOutcome.isSucceeded : FileOutcome → Bool
  | FileOutcome.succeeded _ => true
  | _ => false

/-- True exactly for the outcome that increments skip_count (line 75). -/
def FileOutcome.isSkipped : FileOutcome → Bool
  | FileOutcome.skippedEmpty => true
  | _ => false

/-- The per-file classification performed by the loop body of
process_directory (lines 59-96 of main.py), as a pure function of the
entry's environment. -/
def processFile (e : DirEntry) : FileOutcome :=
  match e.readResult with
  | none => FileOutcome.readFailed
  | some content =>
    if isBlank content then FileOutcome.skippedEmpty
    else
      match clean_single_text e.service with
      | (some _, apiT) =>
          if e.writeOk then FileOutcome.succeeded apiT
          else FileOutcome.writeFailed apiT
      | (none, _) => FileOutcome.transformFailed

/-- One iteration of the loop at lines 59-96 of main.py acting on the mutable
accumulator (success_count, skip_count, total_api_time).  A read exception
continues with the accumulator unchanged; a blank content increments
skip_count; otherwise the service is called, its measured time is added to
total_api_time (line 80, before the write), and success_count is incremented
only when the write succeeds. -/
def dirStep (acc : ℕ × ℕ × ℚ) (e : DirEntry) : ℕ × ℕ × ℚ :=
  match e.readResult with
  | none => acc
  | some content =>
    if isBlank content then (acc.1, acc.2.1 + 1, acc.2.2)
    else
      match clean_single_text e.service with
      | (some _, apiT) =>
          if e.writeOk then (acc.1 + 1, acc.2.1, acc.2.2 + apiT)
          else (acc.1, acc.2.1, acc.2.2 + apiT)
      | (none, apiT) => (acc.1, acc.2.1, acc.2.2 + apiT)

/-- The payloads sent to the transformation service for one entry: the read
content when it is non-blank, nothing otherwise (a blank or unreadable file
makes no service call). -/
def fileServiceCalls (e : DirEntry) : List Str :=
  match e.readResult with
  | none => []
  | some c => if isBlank c then [] else [c]

/-- The output files actually written for one entry: on a successful
transformation followed by a successful write, the derived output name
(marker prepended to the source name, line 86) with the transformed content;
nothing otherwise (a failed write discards the transformed content). -/
def fileWrites (e : DirEntry) : List (Str × Str) :=
  match e.readResult with
  | none => []
  | some c =>
    if isBlank c then []
    else
      match clean_single_text e.service with
      | (some t, _) => if e.writeOk then [(cleanedMarker ++ e.name, t)] else []
      | (none, _) => []

/-- The duration one entry adds to the directory's cumulative API time. -/
def apiContrib (e : DirEntry) : ℚ :=
  match e.readResult with
  | none => 0
  | some c => if isBlank c then 0 else (clean_single_text e.service).2

/-- The tuple returned by process_directory at lines 48 and 98 of main.py:
success_count, skip_count, number of eligible files, total_api_time. -/
structure DirStats where
  success : ℕ
  skip : ℕ
  total : ℕ
  apiTime : ℚ
deriving DecidableEq

/-- Observable side effects of one process_directory call: whether the output
directory was created (line 57), the payloads sent to the service, and the
output files written. -/
structure DirEffects where
  madeOutputDir : Bool
  serviceCalls : List Str
  writtenFiles : List (Str × Str)
deriving DecidableEq

/-- Models process_directory (lines 40-98 of main.py).  The entries are
filtered to eligible files; when none remain the function returns all-zero
counts without creating the output directory (lines 46-48); otherwise the
output directory is created (line 57) and the loop runs over the eligible
files in order. -/
def process_directory (entries : List DirEntry) : DirStats × DirEffects :=
  let txtFiles := entries.filter eligible
  if txtFiles.isEmpty then
    (⟨0, 0, 0, 0⟩, ⟨false, [], []⟩)
  else
    let r := txtFiles.foldl dirStep (0, 0, 0)
    (⟨r.1, r.2.1, txtFiles.length, r.2.2⟩,
     ⟨true, (txtFiles.map fileServiceCalls).flatten, (txtFiles.map fileWrites).flatten⟩)

-- The tree orchestrator (process_root_directory, lines 101-205 of main.py)
-- and the reporting section, modelled over an environment describing the
-- root source directory.

/-- One immediate subdirectory of the root source directory together with its
entries. -/
structure SubDir where
  name : Str
  entries : List DirEntry
deriving DecidableEq

/-- Environment of one program run: whether the root source directory exists,
its immediate subdirectories in enumeration order, and the root's own file
entries (used in the no-subdirectories case of lines 119-122 of main.py). -/
structure RootEnv where
  rootExists : Bool
  subDirs : List SubDir
  rootEntries : List DirEntry
deriving DecidableEq

/-- The label used for the root-as-single-unit case at lines 136 and 151 of
main.py (the Chinese word for root directory). -/
def rootLabel : Str := ['根', '目', '录']

/-- The processing units chosen at lines 113-122 of main.py: the immediate
subdirectories, or the root itself (with an empty name) when there are
none. -/
def unitsOf (env : RootEnv) : List SubDir :=
  if env.subDirs.isEmpty then [⟨[], env.rootEntries⟩] else env.subDirs

/-- The per-directory record appended to dir_results at lines 150-157 of
main.py. -/
structure DirResult where
  name : Str
  success : ℕ
  skip : ℕ
  total : ℕ
  apiTime : ℚ
deriving DecidableEq

/-- The global accumulator of process_root_directory (lines 128-163 of
main.py). -/
structure GlobalSummary where
  totalSuccess : ℕ
  totalSkip : ℕ
  totalFiles : ℕ
  totalApiTime : ℚ
  dirResults : List DirResult
deriving DecidableEq

/-- One iteration of the directory loop at lines 135-165 of main.py: process
the unit, append its record to dir_results, add its counts to the running
totals. -/
def summaryStep (g : GlobalSummary) (u : SubDir) : GlobalSummary :=
  let st := (process_directory u.entries).1
  { totalSuccess := g.totalSuccess + st.success
    totalSkip := g.totalSkip + st.skip
    totalFiles := g.totalFiles + st.total
    totalApiTime := g.totalApiTime + st.apiTime
    dirResults := g.dirResults ++
      [⟨if u.name.isEmpty then rootLabel else u.name, st.success, st.skip,
        st.total, st.apiTime⟩] }

/-- Models process_root_directory (lines 101-205 of main.py): when the root
source directory does not exist it prints an error message and returns
immediately (lines 103-105), processing nothing; otherwise it folds every
unit into the global summary. -/
def process_root_directory (env : RootEnv) : Option GlobalSummary :=
  if env.rootExists then
    some ((unitsOf env).foldl summaryStep ⟨0, 0, 0, 0, []⟩)
  else none

/-- Coarse observable events of one program run. -/
inductive Event where
  | mkdirRootOutput
  | rootMissingMsg
  | processDir (name : Str)
deriving DecidableEq

/-- Result of one full program run: its event trace, the global summary when
one was produced, and the interpreter's exit status. -/
structure MainResult where
  trace : List Event
  summary : Option GlobalSummary
  exitCode : ℕ
deriving DecidableEq

/-- Models one run of main.py as a script: line 13 creates the root output
directory at import time, before process_root_directory (called at line 209)
performs the existence check of line 103.  process_root_directory returns
normally in both of its branches and the script contains no sys.exit, so the
interpreter exits with status 0 in both cases. -/
def pythonMain (env : RootEnv) : MainResult :=
  if env.rootExists then
    { trace := Event.mkdirRootOutput ::
        (unitsOf env).map (fun u => Event.processDir u.name)
      summary := process_root_directory env
      exitCode := 0 }
  else
    { trace := [Event.mkdirRootOutput, Event.rootMissingMsg]
      summary := none
      exitCode := 0 }

/-- The per-directory report line at lines 175-181 of main.py: the success
percentage when the directory had eligible files, and the no-files label
(modelled as none) otherwise. -/
def successRateLine (r : DirResult) : Option ℚ :=
  if 0 < r.total then some (((r.success : ℚ) / (r.total : ℚ)) * 100) else none

/-- The derived rates of the summary report (lines 175-195 of main.py); a
none field models the corresponding line not being printed. -/
structure SummaryReport where
  perDirLine : List (Option ℚ)
  avgFileTime : Option ℚ
  avgApiTime : Option ℚ
  apiShare : Option ℚ
deriving DecidableEq

/-- Models the reporting section at lines 175-195 of main.py as a pure
function of the aggregated statistics: the per-file averages are printed only
when total_success > 0 (line 190), and the API time share additionally only
when total_api_time > 0 (line 193); its divisor total_elapsed is not itself
checked. -/
def reportOf (dirs : List DirResult) (totalSuccess : ℕ)
    (totalApiTime totalElapsed : ℚ) : SummaryReport :=
  { perDirLine := dirs.map successRateLine
    avgFileTime :=
      if 0 < totalSuccess then some (totalElapsed / (totalSuccess : ℚ)) else none
    avgApiTime :=
      if 0 < totalSuccess then some (totalApiTime / (totalSuccess : ℚ)) else none
    apiShare :=
      if 0 < totalSuccess ∧ 0 < totalApiTime then
        some ((totalApiTime / totalElapsed) * 100)
      else none }

-- Concrete data used by the witness and counterexample theorems.

def sampleNameA : Str := ['a', '.', 't', 'x', 't']

def sampleNameB : Str := ['b', '.', 't', 'x', 't']

def sampleContent : Str := ['h', 'i']

def sampleCleaned : Str := ['o', 'k']

def sampleBlank : Str := [' ', '\n']

def blankEntry : DirEntry :=
  ⟨sampleNameA, true, some sampleBlank, ServiceOutcome.err, true⟩

def looseEntry : DirEntry :=
  ⟨sampleNameA, false, none, ServiceOutcome.err, true⟩

def writeFailEntry : DirEntry :=
  ⟨sampleNameA, true, some sampleContent, ServiceOutcome.ok sampleCleaned 5, false⟩

def okServiceEntry : DirEntry :=
  ⟨sampleNameB, true, some sampleContent, ServiceOutcome.ok sampleCleaned 3, true⟩

/-- A run environment whose root source directory is missing. -/
def missingRootEnv : RootEnv := ⟨false, [], []⟩

/-- A run with one subdirectory holding a single file whose transformation
succeeds (5 time units of API work) but whose output write then fails, so
API time accrues while no file is counted as succeeded. -/
def writeFailRunEnv : RootEnv := ⟨true, [⟨['d'], [writeFailEntry]⟩], []⟩

/-- The global summary produced by the writeFailRunEnv run. -/
def writeFailSummary : GlobalSummary :=
  (process_root_directory writeFailRunEnv).getD ⟨0, 0, 0, 0, []⟩

-- Helper lemmas relating the loop to the per-file classification.

theorem dirStep_split (acc : ℕ × ℕ × ℚ) (e : DirEntry) :
    dirStep acc e =
      (acc.1 + (if (processFile e).isSucceeded then 1 else 0),
       acc.2.1 + (if (processFile e).isSkipped then 1 else 0),
       acc.2.2 + apiContrib e) := by
  unfold dirStep processFile apiContrib
  cases h : e.readResult with
  | none => simp [FileOutcome.isSucceeded, FileOutcome.isSkipped]
  | some c =>
    by_cases hb : isBlank c
    · simp [hb, FileOutcome.isSucceeded, FileOutcome.isSkipped]
    · cases hs : e.service with
      | ok t d =>
        by_cases hw : e.writeOk <;>
          simp [hb, hw, clean_single_text, FileOutcome.isSucceeded,
            FileOutcome.isSkipped]
      | err =>
        simp [hb, clean_single_text, FileOutcome.isSucceeded,
          FileOutcome.isSkipped]

theorem foldl_dirStep (l : List DirEntry) (a s : ℕ) (q : ℚ) :
    l.foldl dirStep (a, s, q) =
      (a + (l.map processFile).countP FileOutcome.isSucceeded,
       s + (l.map processFile).countP FileOutcome.isSkipped,
       q + (l.map apiContrib).sum) := by
  induction l generalizing a s q with
  | nil => simp
  | cons e t ih =>
    rw [List.foldl_cons, dirStep_split, ih]
    simp only [List.map_cons, List.countP_cons, List.sum_cons, Prod.mk.injEq]
    refine ⟨?_, ?_, ?_⟩
    · by_cases h : FileOutcome.isSucceeded (processFile e) <;> simp [h] <;> omega
    · by_cases h : FileOutcome.isSkipped (processFile e) <;> simp [h] <;> omega
    · ring

theorem countP_succ_skip_le (l : List FileOutcome) :
    l.countP FileOutcome.isSucceeded + l.countP FileOutcome.isSkipped ≤ l.length := by
  induction l with
  | nil => simp
  | cons o t ih =>
    cases o <;>
      simp [List.countP_cons, FileOutcome.isSucceeded, FileOutcome.isSkipped] <;>
      omega

theorem process_directory_stats (entries : List DirEntry) :
    (process_directory entries).1 =
      ⟨((entries.filter eligible).map processFile).countP FileOutcome.isSucceeded,
       ((entries.filter eligible).map processFile).countP FileOutcome.isSkipped,
       (entries.filter eligible).length,
       ((entries.filter eligible).map apiContrib).sum⟩ := by
  cases h : (entries.filter eligible).isEmpty with
  | true =>
    rw [List.isEmpty_iff] at h
    simp [process_directory, h]
  | false =>
    have hfold := foldl_dirStep (entries.filter eligible) 0 0 0
    simp only [process_directory, h, Bool.false_eq_true, if_false]
    rw [hfold]
    simp

/-- C1: the counts returned by process_directory satisfy the accounting
invariant: totalEligible is the number of filtered eligible files, succeeded
and skippedEmpty count the (disjoint) per-file outcomes succeeded and
skippedEmpty over exactly those files, their sum is at most totalEligible,
and the derived remainder failed = totalEligible - succeeded - skippedEmpty
restores succeeded + skippedEmpty + failed = totalEligible. -/
theorem c1_stats_invariant (entries : List DirEntry) :
    ((process_directory entries).1.total = (entries.filter eligible).length) ∧
    ((process_directory entries).1.success =
      ((entries.filter eligible).map processFile).countP FileOutcome.isSucceeded) ∧
    ((process_directory entries).1.skip =
      ((entries.filter eligible).map processFile).countP FileOutcome.isSkipped) ∧
    ((process_directory entries).1.success + (process_directory entries).1.skip ≤
      (process_directory entries).1.total) ∧
    ((process_directory entries).1.success + (process_directory entries).1.skip +
      ((process_directory entries).1.total -
        ((process_directory entries).1.success + (process_directory entries).1.skip)) =
      (process_directory entries).1.total) := by
  have hst := process_directory_stats entries
  have hle := countP_succ_skip_le ((entries.filter eligible).map processFile)
  rw [List.length_map] at hle
  rw [hst]
  exact ⟨rfl, rfl, rfl, hle, Nat.add_sub_cancel' hle⟩

/-- C3: a file whose read content is empty or whitespace-only is classified
skippedEmpty, the loop iteration only increments skip_count, no payload is
sent to the transformation service for it, and the loop continues with the
remaining files. -/
theorem c3_blank_skipped (e : DirEntry) (c : Str) (acc : ℕ × ℕ × ℚ)
    (l1 l2 : List DirEntry)
    (h1 : e.readResult = some c) (h2 : isBlank c = true) :
    processFile e = FileOutcome.skippedEmpty ∧
    dirStep acc e = (acc.1, acc.2.1 + 1, acc.2.2) ∧
    fileServiceCalls e = [] ∧
    (l1 ++ e :: l2).foldl dirStep acc =
      l2.foldl dirStep (dirStep (l1.foldl dirStep acc) e) := by
  refine ⟨?_, ?_, ?_, ?_⟩ <;>
    simp [processFile, dirStep, fileServiceCalls, h1, h2, List.foldl_append]

theorem c3_blank_skipped_witness :
    processFile blankEntry = FileOutcome.skippedEmpty ∧
    dirStep (0, 0, 0) blankEntry = ((0 : ℕ), (0 : ℕ) + 1, (0 : ℚ)) ∧
    fileServiceCalls blankEntry = [] ∧
    ([] ++ blankEntry :: []).foldl dirStep (0, 0, 0) =
      [].foldl dirStep (dirStep ([].foldl dirStep (0, 0, 0)) blankEntry) :=
  c3_blank_skipped blankEntry sampleBlank (0, 0, 0) [] [] rfl (by decide)

/-- C4: when a directory contains no eligible files (no regular file whose
name has the recognized text extension), process_directory returns all-zero
stats with zero cumulative API time, does not create the output directory,
makes no service call and writes nothing. -/
theorem c4_no_eligible_files (entries : List DirEntry)
    (h : entries.filter eligible = []) :
    process_directory entries = (⟨0, 0, 0, 0⟩, ⟨false, [], []⟩) := by
  simp [process_directory, h]

theorem c4_no_eligible_files_witness :
    process_directory [looseEntry] = (⟨0, 0, 0, 0⟩, ⟨false, [], []⟩) :=
  c4_no_eligible_files [looseEntry] (by decide)

/-- C5: when the transformation succeeds but the output write fails, the file
is not counted as succeeded (its outcome is writeFailed, an implicit
failure), the transformed content is discarded (nothing is written for it),
the loop continues with the remaining files, and only the cumulative API time
grows by the measured call duration. -/
theorem c5_write_failure (e : DirEntry) (c t : Str) (d : ℚ) (acc : ℕ × ℕ × ℚ)
    (l1 l2 : List DirEntry)
    (h1 : e.readResult = some c) (h2 : isBlank c = false)
    (h3 : e.service = ServiceOutcome.ok t d) (h4 : e.writeOk = false) :
    processFile e = FileOutcome.writeFailed d ∧
    (processFile e).isSucceeded = false ∧
    fileWrites e = [] ∧
    dirStep acc e = (acc.1, acc.2.1, acc.2.2 + d) ∧
    (l1 ++ e :: l2).foldl dirStep acc =
      l2.foldl dirStep (dirStep (l1.foldl dirStep acc) e) := by
  refine ⟨?_, ?_, ?_, ?_, ?_⟩ <;>
    simp [processFile, dirStep, fileWrites, clean_single_text, h1, h2, h3, h4,
      FileOutcome.isSucceeded, List.foldl_append]

theorem c5_write_failure_witness :
    processFile writeFailEntry = FileOutcome.writeFailed 5 ∧
    (processFile writeFailEntry).isSucceeded = false ∧
    fileWrites writeFailEntry = [] ∧
    dirStep (0, 0, 0) writeFailEntry = ((0 : ℕ), (0 : ℕ), (0 : ℚ) + 5) ∧
    ([] ++ writeFailEntry :: []).foldl dirStep (0, 0, 0) =
      [].foldl dirStep (dirStep ([].foldl dirStep (0, 0, 0)) writeFailEntry) :=
  c5_write_failure writeFailEntry sampleContent sampleCleaned 5 (0, 0, 0) [] []
    rfl (by decide) rfl rfl

/-- C6: clean_single_text is a total function of the service outcome: it
returns either the service's reply text paired with the measured call
duration, or the failure value (none, 0); no exception crosses the
Transformer boundary. -/
theorem c6_transformer_total (svc : ServiceOutcome) :
    (∃ t d, svc = ServiceOutcome.ok t d ∧ clean_single_text svc = (some t, d)) ∨
    (svc = ServiceOutcome.err ∧ clean_single_text svc = (none, 0)) := by
  cases svc with
  | ok t d => exact Or.inl ⟨t, d, rfl, rfl⟩
  | err => exact Or.inr ⟨rfl, rfl⟩

/-- C7: per-file isolation as a two-run property: replacing the service
outcome of the file at position k of the eligible list with a failure leaves
every file at a later position j with exactly the same per-file processing:
same classification outcome, same service payloads, same written output. -/
theorem c7_isolation (fs : List DirEntry) (k j : ℕ)
    (hk : k < fs.length) (hkj : k < j) (hj : j < fs.length)
    (hj2 : j < (fs.set k { fs.get ⟨k, hk⟩ with service := ServiceOutcome.err }).length) :
    processFile ((fs.set k { fs.get ⟨k, hk⟩ with service := ServiceOutcome.err }).get ⟨j, hj2⟩) =
      processFile (fs.get ⟨j, hj⟩) ∧
    fileServiceCalls ((fs.set k { fs.get ⟨k, hk⟩ with service := ServiceOutcome.err }).get ⟨j, hj2⟩) =
      fileServiceCalls (fs.get ⟨j, hj⟩) ∧
    fileWrites ((fs.set k { fs.get ⟨k, hk⟩ with service := ServiceOutcome.err }).get ⟨j, hj2⟩) =
      fileWrites (fs.get ⟨j, hj⟩) := by
  have hget : (fs.set k { fs.get ⟨k, hk⟩ with service := ServiceOutcome.err }).get ⟨j, hj2⟩ =
      fs.get ⟨j, hj⟩ := by
    simp [List.get_eq_getElem, List.getElem_set_ne (Nat.ne_of_lt hkj)]
  rw [hget]
  exact ⟨rfl, rfl, rfl⟩

theorem c7_isolation_witness :
    processFile (([okServiceEntry, writeFailEntry].set 0
        { [okServiceEntry, writeFailEntry].get ⟨0, by decide⟩ with
            service := ServiceOutcome.err }).get ⟨1, by decide⟩) =
      processFile ([okServiceEntry, writeFailEntry].get ⟨1, by decide⟩) ∧
    fileServiceCalls (([okServiceEntry, writeFailEntry].set 0
        { [okServiceEntry, writeFailEntry].get ⟨0, by decide⟩ with
            service := ServiceOutcome.err }).get ⟨1, by decide⟩) =
      fileServiceCalls ([okServiceEntry, writeFailEntry].get ⟨1, by decide⟩) ∧
    fileWrites (([okServiceEntry, writeFailEntry].set 0
        { [okServiceEntry, writeFailEntry].get ⟨0, by decide⟩ with
            service := ServiceOutcome.err }).get ⟨1, by decide⟩) =
      fileWrites ([okServiceEntry, writeFailEntry].get ⟨1, by decide⟩) :=
  c7_isolation [okServiceEntry, writeFailEntry] 0 1 (by decide) (by decide)
    (by decide) (by decide)

/-- C10: for a readable non-blank file, a successful transformation call adds
exactly its measured duration to the cumulative API time, independently of
the write outcome, and a failed transformation call contributes exactly 0. -/
theorem c10_api_time (e : DirEntry) (c : Str) (acc : ℕ × ℕ × ℚ)
    (h1 : e.readResult = some c) (h2 : isBlank c = false) :
    (∀ t d, e.service = ServiceOutcome.ok t d →
      (dirStep acc e).2.2 = acc.2.2 + d ∧ apiContrib e = d ∧
      apiContrib { e with writeOk := true } = apiContrib { e with writeOk := false }) ∧
    (e.service = ServiceOutcome.err →
      (dirStep acc e).2.2 = acc.2.2 ∧ apiContrib e = 0) := by
  constructor
  · intro t d h3
    refine ⟨?_, ?_, ?_⟩ <;>
      by_cases hw : e.writeOk <;>
        simp [dirStep, apiContrib, clean_single_text, h1, h2, h3, hw]
  · intro h3
    simp [dirStep, apiContrib, clean_single_text, h1, h2, h3]

theorem c10_api_time_witness :
    ((∀ t d, okServiceEntry.service = ServiceOutcome.ok t d →
      (dirStep (0, 0, 0) okServiceEntry).2.2 = (0 : ℚ) + d ∧
      apiContrib okServiceEntry = d ∧
      apiContrib { okServiceEntry with writeOk := true } =
        apiContrib { okServiceEntry with writeOk := false }) ∧
    (okServiceEntry.service = ServiceOutcome.err →
      (dirStep (0, 0, 0) okServiceEntry).2.2 = (0 : ℚ) ∧
      apiContrib okServiceEntry = 0)) :=
  c10_api_time okServiceEntry sampleContent (0, 0, 0) rfl (by decide)

/-- C2 counterexample: on a run whose root source directory is missing, the
process exit status is 0, not non-zero: process_root_directory prints an
error and returns normally (lines 103-105 of main.py), and the script never
calls sys.exit.  The claimed equivalence between a non-zero exit status and
the missing root directory is therefore false at this input. -/
theorem c2_counterexample :
    ¬ (((pythonMain missingRootEnv).exitCode ≠ 0) ↔
        missingRootEnv.rootExists = false) := by
  decide

/-- C2 (amended): the process exit status is zero in every run, including one
that aborts on the missing-root-directory precondition; in that case
process_root_directory still fails fast: it produces no summary and the run
processes no directory. -/
theorem c2_exit_status (env : RootEnv) :
    (pythonMain env).exitCode = 0 ∧
    (env.rootExists = false →
      (pythonMain env).summary = none ∧
      ∀ n, Event.processDir n ∉ (pythonMain env).trace) := by
  constructor
  · by_cases h : env.rootExists <;> simp [pythonMain, h]
  · intro h
    simp [pythonMain, h]

theorem c2_exit_status_witness :
    (pythonMain missingRootEnv).exitCode = 0 ∧
    (pythonMain missingRootEnv).summary = none :=
  ⟨(c2_exit_status missingRootEnv).1,
   ((c2_exit_status missingRootEnv).2 rfl).1⟩

/-- C9: the root output directory is created first, at import time, before
the root-source-directory existence check runs; consequently even a run that
aborts on the missing-root precondition has already created the root output
directory. -/
theorem c9_output_dir_created_first (env : RootEnv) :
    (pythonMain env).trace.head? = some Event.mkdirRootOutput ∧
    (env.rootExists = false →
      (pythonMain env).trace = [Event.mkdirRootOutput, Event.rootMissingMsg]) := by
  constructor
  · by_cases h : env.rootExists <;> simp [pythonMain, h]
  · intro h
    simp [pythonMain, h]

theorem c9_output_dir_created_first_witness :
    (pythonMain missingRootEnv).trace.head? = some Event.mkdirRootOutput ∧
    (pythonMain missingRootEnv).trace =
      [Event.mkdirRootOutput, Event.rootMissingMsg] :=
  ⟨(c9_output_dir_created_first missingRootEnv).1,
   (c9_output_dir_created_first missingRootEnv).2 rfl⟩

/-- C8 counterexample: a reachable summary (one eligible file whose
transformation succeeded with 5 time units of API work and whose write then
failed) has totalSuccess = 0 and totalApiTime = 5 > 0; with a positive total
elapsed time of 7 the report omits the external-call time share, because the
code's guard is total_success > 0 and total_api_time > 0, not positivity of
totalApiTime and totalElapsedTime as claimed. -/
theorem c8_counterexample :
    writeFailSummary.totalSuccess = 0 ∧
    writeFailSummary.totalApiTime = 5 ∧
    (0 : ℚ) < writeFailSummary.totalApiTime ∧ (0 : ℚ) < 7 ∧
    (reportOf writeFailSummary.dirResults writeFailSummary.totalSuccess
      writeFailSummary.totalApiTime 7).apiShare = none := by
  have hsucc : writeFailSummary.totalSuccess = 0 := rfl
  have hapi : writeFailSummary.totalApiTime = 5 := by
    have h0 : writeFailSummary.totalApiTime = 0 + (0 + 5) := rfl
    rw [h0]
    norm_num
  refine ⟨hsucc, hapi, ?_, by norm_num, ?_⟩
  · rw [hapi]
    norm_num
  · simp [reportOf, hsucc]

/-- C8 (amended): the Reporter computes the per-directory success percentage
succeeded/totalEligible (scaled to percent) exactly when totalEligible > 0,
with the no-files label otherwise; the average per-file elapsed time
totalElapsedTime/totalSucceeded exactly when totalSucceeded > 0; and the
external-call time share totalApiTime/totalElapsedTime (scaled to percent)
exactly when totalSucceeded > 0 and totalApiTime > 0 — not whenever
totalApiTime and totalElapsedTime are both positive, and with no separate
guard on the divisor totalElapsedTime. -/
theorem c8_report_rates (dirs : List DirResult) (ts : ℕ) (api el : ℚ) :
    ((reportOf dirs ts api el).perDirLine = dirs.map successRateLine) ∧
    (∀ r ∈ dirs,
      (r.total = 0 → successRateLine r = none) ∧
      (0 < r.total →
        successRateLine r = some (((r.success : ℚ) / (r.total : ℚ)) * 100))) ∧
    ((reportOf dirs ts api el).avgFileTime =
      if 0 < ts then some (el / (ts : ℚ)) else none) ∧
    ((reportOf dirs ts api el).apiShare.isSome ↔ 0 < ts ∧ 0 < api) ∧
    (0 < ts → 0 < api →
      (reportOf dirs ts api el).apiShare = some ((api / el) * 100)) := by
  refine ⟨rfl, ?_, rfl, ?_, ?_⟩
  · intro r _hr
    constructor
    · intro h0
      simp [successRateLine, h0]
    · intro hpos
      simp [successRateLine, hpos]
  · by_cases hc : 0 < ts ∧ 0 < api <;> simp [reportOf, hc]
  · intro h1 h2
    simp [reportOf, h1, h2]

theorem c8_report_rates_witness :
    (((reportOf [⟨['d'], 0, 0, 0, 0⟩] 1 5 7).perDirLine =
        [⟨['d'], 0, 0, 0, 0⟩].map successRateLine) ∧
      (successRateLine ⟨['d'], 0, 0, 0, 0⟩ = none) ∧
      ((reportOf [⟨['d'], 0, 0, 0, 0⟩] 1 5 7).avgFileTime = some (7 / 1)) ∧
      ((reportOf [⟨['d'], 0, 0, 0, 0⟩] 1 5 7).apiShare.isSome) ∧
      ((reportOf [⟨['d'], 0, 0, 0, 0⟩] 1 5 7).apiShare = some ((5 / 7) * 100))) := by
  have h := c8_report_rates [⟨['d'], 0, 0, 0, 0⟩] 1 5 7
  refine ⟨h.1, ?_, ?_, ?_, ?_⟩
  · exact ((h.2.1 ⟨['d'], 0, 0, 0, 0⟩ (by simp)).1 rfl)
  · rw [h.2.2.1]
    norm_num
  · exact (h.2.2.2.1).2 ⟨by norm_num, by norm_num⟩
  · exact h.2.2.2.2 (by norm_num) (by norm_num)
